import Mathlib

/-!
Shallow embedding of the videotocartoon repository (src/app.py) and proofs of
the spec claims about it.

The embedding covers:
* the rain overlay effect `add_rain_effect` (src/app.py lines 9-23), with the
  NumPy global random generator modelled as an explicit state that every call
  reads and advances;
* the combined style+rain transform `combined_transform` (lines 45-51);
* the Feature 2 side-by-side compositing block (lines 85-146): its guard
  and the NameError it raises at line 91 on every entry (`os` and
  `CompositeVideoClip` are imported only inside the Feature 3 branch, lines
  182-183, never at module scope), together with the composition the dead
  code at lines 96-134 was meant to perform: min-duration trim loop, resize
  to target_size = (426, 720), placements at x = 0, 426, 852 on a 1280x720
  canvas; plus the watermark call and session-state export tail;
* the Feature 3 sequential-reveal compositing block (lines 179-264), which
  its local imports make actually executable: one 1-second intro segment
  where all three tracks play, then one segment per track where the other
  two tracks are frozen images sampled at t = 1 with opacity 0.4.

Pixels are natural numbers in [0, 255]; durations and times are rationals.
-/

namespace VideoToCartoon

/-- A decoded video frame: a fixed-size grid of pixels with 3 color
channels, each channel an 8-bit value. `px row col ch` reads one channel. -/
structure Frame where
  h : Nat
  w : Nat
  px : Nat → Nat → Fin 3 → Nat

/-- The NumPy global random generator, modelled as an infinite stream of
draws together with a cursor. Every `np.random.randint` call consumes one
draw and advances the cursor: this is the shared mutable state that all
invocations of the rain effect read and write. -/
structure RngState where
  stream : Nat → Nat
  pos : Nat

/-- Model of `np.random.randint(lo, hi)`: returns a value in `[lo, hi)`
taken from the global stream, and the advanced generator state. -/
def np_random_randint (s : RngState) (lo hi : Nat) : Nat × RngState :=
  (lo + s.stream s.pos % (hi - lo), ⟨s.stream, s.pos + 1⟩)

/-- One raindrop of the rain layer: `cv2.line(rain_layer, (x, y),
(x, y + len), color, 1)` draws a vertical 1-pixel-wide segment. -/
structure Drop where
  x : Nat
  y : Nat
  len : Nat
  deriving DecidableEq

/-- Whether drop `d` paints the pixel at `(row, col)`: the drop occupies
column `x` and rows `y` to `y + len` inclusive. -/
def dropCovers (d : Drop) (row col : Nat) : Bool :=
  col == d.x && d.y ≤ row && row ≤ d.y + d.len

/-- The rain color `(200, 200, 255)` used for every drop. -/
def rainColor : Fin 3 → Nat
  | 0 => 200
  | 1 => 200
  | 2 => 255

/-- Model of one `cv2.line` call onto the rain layer: paints the rain color
on every pixel of the drop that lies inside the `hgt x wid` image, leaving
every other pixel of the layer unchanged. -/
def drawLine (hgt wid : Nat) (d : Drop) (layer : Nat → Nat → Fin 3 → Nat) :
    Nat → Nat → Fin 3 → Nat :=
  fun row col ch =>
    if dropCovers d row col ∧ row < hgt ∧ col < wid then rainColor ch
    else layer row col ch

/-- The rain layer: starts as `np.zeros((h, w, 3))` and receives one line
per sampled drop, in order. -/
def rainLayer (hgt wid : Nat) (drops : List Drop) : Nat → Nat → Fin 3 → Nat :=
  drops.foldl (fun layer d => drawLine hgt wid d layer) (fun _ _ _ => 0)

/-- Sampling of the 300 raindrops from the global generator, in the order
the source draws them: `x = randint(0, w)`, `y = randint(0, h)`,
`length = randint(10, 20)` for each drop. -/
def sampleDrops (w h : Nat) : Nat → RngState → List Drop × RngState
  | 0, s => ([], s)
  | n + 1, s =>
    let xs := np_random_randint s 0 w
    let ys := np_random_randint xs.2 0 h
    let ls := np_random_randint ys.2 10 20
    let rest := sampleDrops w h n ls.2
    (⟨xs.1, ys.1, ls.1⟩ :: rest.1, rest.2)

/-- Round-half-to-even division `num / den`, as `cv2.addWeighted` uses for
its saturating cast back to 8 bit. -/
def roundHalfEven (num den : Nat) : Nat :=
  let q := num / den
  let r := num % den
  if 2 * r < den then q
  else if den < 2 * r then q + 1
  else if q % 2 = 0 then q else q + 1

/-- One pixel channel of `cv2.addWeighted(frame, 1.0, rain_layer, 0.15, 0)`:
the weighted sum `f * 1.0 + r * 0.15` (written as `(20 * f + 3 * r) / 20`
over the rationals) rounded to nearest and saturated at 255. -/
def addWeightedPx (f r : Nat) : Nat :=
  min 255 (roundHalfEven (20 * f + 3 * r) 20)

/-- The number of raindrops the source loop draws: `range(300)`. -/
def numDrops : Nat := 300

/-- The drops one `add_rain_effect` call samples for frame `f`, together
with the generator state it leaves behind. -/
def rainDrops (f : Frame) (s : RngState) : List Drop × RngState :=
  sampleDrops f.w f.h numDrops s

/-- Model of `add_rain_effect` (src/app.py lines 9-23): samples 300 drops
from the global generator, paints them on a fresh zero layer of the frame
size, and blends the layer over the frame with weight 0.15. Returns the
blended frame together with the advanced generator state. -/
def add_rain_effect (f : Frame) (s : RngState) : Frame × RngState :=
  (⟨f.h, f.w,
    fun row col ch =>
      addWeightedPx (f.px row col ch)
        (rainLayer f.h f.w (rainDrops f s).1 row col ch)⟩,
   (rainDrops f s).2)

/-- Model of `combined_transform` (src/app.py lines 46-48): the style
transform is applied first, the rain overlay second. The style transform
`transform_func` comes from `helpers/style_transfer`, which is not part of
src/, so it is kept as a parameter. -/
def combined_transform (transform_func : Frame → Frame) (f : Frame) (s : RngState) :
    Frame × RngState :=
  add_rain_effect (transform_func f) s

/-- The width and height of a frame, as a pair. -/
def Frame.dims (f : Frame) : Nat × Nat := (f.h, f.w)

/-! ## Track compositor model (Features 2 and 3) -/

/-- One decoded input video track: its total duration in seconds and its
native frame size. -/
structure Track where
  duration : ℚ
  width : Nat
  height : Nat
  deriving DecidableEq

/-- A spatial placement of one (already resized) clip on the output canvas:
`set_position((x, y))` with the cell size the clip was resized to and the
opacity set on it. -/
structure Placement where
  x : Nat
  y : Nat
  w : Nat
  h : Nat
  opacity : ℚ
  deriving DecidableEq

/-- One composited output clip: the `CompositeVideoClip(..., size=...)` with
its duration and the placements of its component clips. -/
structure Composite where
  canvasW : Nat
  canvasH : Nat
  duration : ℚ
  placements : List Placement
  deriving DecidableEq

/-- The min-duration loop of Feature 2 (src/app.py lines 102-113):
`min_duration` starts as `None` and is replaced whenever a track duration is
strictly smaller. -/
def minDurationLoop (ds : List ℚ) : Option ℚ :=
  ds.foldl
    (fun acc d =>
      match acc with
      | none => some d
      | some m => if d < m then some d else some m)
    none

/-- Feature 2 `target_size = (426, 720)` (src/app.py line 96): every input
clip is resized to this cell size whatever its native resolution. -/
def target_size : Nat × Nat := (426, 720)

/-- The three placements of the side-by-side composite (src/app.py lines
120-124 and 130-134): positions (0, 0), (426, 0), (852, 0), each clip at
the target cell size, no opacity reduction. -/
def sbsPlacements : List Placement :=
  [⟨0, 0, target_size.1, target_size.2, 1⟩,
   ⟨426, 0, target_size.1, target_size.2, 1⟩,
   ⟨852, 0, target_size.1, target_size.2, 1⟩]

/-- The composition the Feature 2 block attempts (src/app.py lines
96-134): resize each track to `target_size`, compute the minimum duration
with the loop, trim every raw and styled clip to it with
`subclip(0, min_duration)`, and build the raw and the styled
`CompositeVideoClip`, both of size `(1280, 720)` and duration
`min_duration`. Returns (raw, styled). This code is DEAD: every entry into
the block raises NameError at line 91 first (`os` is imported only inside
the Feature 3 branch, line 182, never at module scope), and its own
`CompositeVideoClip` call at line 120 is likewise unbound at this scope.
The definition embeds the lines as written only to state what the block
was intended to produce, for the code-bug analysis of claims C1 and C8;
`feature2Run` below models the path actually taken. -/
def sideBySide (t1 t2 t3 : Track) : Composite × Composite :=
  let md := minDurationLoop ([t1, t2, t3].map Track.duration)
  let m := md.getD 0
  (⟨1280, 720, m, sbsPlacements⟩, ⟨1280, 720, m, sbsPlacements⟩)

/-- Outcome of running the Feature 2 block on an uploaded file list. The
source has no `InvalidTrackError`; that constructor is present so that the
spec claim about it can be stated. `raisedNameError` is an uncaught
NameError escaping the block; `completed` (a successful composition) is
never produced by `feature2Run` and exists to state that fact. -/
inductive ComposeOutcome where
  | notRun : ComposeOutcome
  | completed : Composite → Composite → ComposeOutcome
  | raisedInvalidTrack : ComposeOutcome
  | raisedNameError : String → ComposeOutcome
  deriving DecidableEq

/-- The Feature 2 control flow (src/app.py lines 85-146): the generation
block runs only under the guard
`if uploaded_files and len(uploaded_files) == 3`; any other upload count
leaves the block unentered. When the guard passes, the first statement of
the upload loop, `os.path.join` at line 91, raises NameError: `os` is
never imported at module scope (only inside the Feature 3 branch at line
182, which has not run at that point of the script), so the block dies
before any file is written, before the min-duration loop and before any
composition (whose `CompositeVideoClip` at line 120 is also unbound). No
branch examines track durations and nothing raises `InvalidTrackError`. -/
def feature2Run (tracks : List Track) : ComposeOutcome :=
  if tracks ≠ [] ∧ tracks.length = 3 then
    ComposeOutcome.raisedNameError "NameError: name os is not defined"
  else ComposeOutcome.notRun

/-- The Streamlit session state slots Feature 2 writes its results into
(src/app.py lines 143-146). -/
structure SessionState where
  sbs_raw_output : Option Composite
  sbs_final_output : Option Composite
  deriving DecidableEq

/-- Result of the export tail of the Feature 2 block: either the session
state after a successful run, or an uncaught exception together with the
unchanged session state. -/
inductive ExportResult where
  | delivered : SessionState → ExportResult
  | uncaught : String → SessionState → ExportResult
  deriving DecidableEq

/-- The export tail of the generation blocks (src/app.py lines 136-146 and
254-264): after the raw and styled files are written,
`apply_watermark(styled_temp, final_output)` is called with no try/except
around it; only if it returns are the raw and final files stored into the
session state. A failure propagates out of the block and the session state
is left untouched. This pattern is live code in Feature 3 (lines 254-264,
reached thanks to the local imports at lines 182-183); the Feature 2 copy
at lines 136-146 sits past the unreachable point of that block. The
watermark operation is a parameter because the called name
`apply_watermark` resolves to nothing in the source. -/
def feature2Export (raw styled : Composite)
    (apply_watermark : Composite → Except String Composite)
    (st : SessionState) : ExportResult :=
  match apply_watermark styled with
  | Except.ok final =>
    ExportResult.delivered ⟨some raw, some final⟩
  | Except.error e => ExportResult.uncaught e st

/-- The watermark callable as the source actually has it: `apply_watermark`
is never defined or imported in src/app.py (only `add_watermark_to_clip`
is imported), so every call raises a NameError. -/
def apply_watermark_undefined : Composite → Except String Composite :=
  fun _ => Except.error "NameError: name apply_watermark is not defined"

/-! ## Feature 3: sequential reveal with 1-second intro -/

/-- What one cell of a sequential-reveal segment shows: either a track
playing live over a time window of the source, or a single frozen frame of
a track sampled at a fixed source time and held at a given opacity. -/
inductive CellContent where
  | live : Fin 3 → ℚ → ℚ → CellContent
  | frozen : Fin 3 → ℚ → ℚ → CellContent
  deriving DecidableEq

/-- One cell of a sequential segment: its x offset on the canvas (each cell
is placed with `set_position((j * width, 0))`) and what it shows. -/
structure Cell where
  x : Nat
  content : CellContent
  deriving DecidableEq

/-- One time segment of the sequential composition: its duration and the
three cells of the 1280x720 canvas. -/
structure Seg where
  duration : ℚ
  cells : List Cell
  deriving DecidableEq

/-- Feature 3 cell width: `width, height = int(1280 / 3), 720`
(src/app.py line 196). -/
def seqCellWidth : Nat := 1280 / 3

/-- The duration of the th track among the three, by index. -/
def trackDuration (t1 t2 t3 : Track) : Fin 3 → ℚ
  | 0 => t1.duration
  | 1 => t2.duration
  | 2 => t3.duration

/-- The intro segment (src/app.py lines 203-215): every track plays
`subclip(0, intro_duration)` with `intro_duration = 1`, cell `j` at
`x = j * width`; the composite duration is the common subclip duration 1. -/
def introSeg : Seg :=
  ⟨1,
   [⟨0, CellContent.live 0 0 1⟩,
    ⟨seqCellWidth, CellContent.live 1 0 1⟩,
    ⟨2 * seqCellWidth, CellContent.live 2 0 1⟩]⟩

/-- Segment `i` of the sequential part (src/app.py lines 221-243): its
duration is `dur = video_raw[i].duration`; cell `j = i` plays the full
track, every other cell `j` holds
`video_raw[j].to_ImageClip(t=1).set_duration(dur).set_opacity(0.4)`, i.e. a
frozen frame sampled at source time 1 at opacity 0.4. -/
def seqSeg (t1 t2 t3 : Track) (i : Fin 3) : Seg :=
  let dur := trackDuration t1 t2 t3 i
  ⟨dur,
   (List.finRange 3).map fun j =>
     ⟨j.val * seqCellWidth,
      if j = i then CellContent.live j 0 dur
      else CellContent.frozen j 1 (2 / 5)⟩⟩

/-- The whole Feature 3 timeline (src/app.py lines 203-247): the intro
segment followed by one segment per track, concatenated in order. -/
def sequentialTimeline (t1 t2 t3 : Track) : List Seg :=
  [introSeg, seqSeg t1 t2 t3 0, seqSeg t1 t2 t3 1, seqSeg t1 t2 t3 2]

/-- Total duration of a concatenated timeline: `concatenate_videoclips`
plays the segments back to back. -/
def timelineDuration (segs : List Seg) : ℚ :=
  (segs.map Seg.duration).sum

/-- The source-time reads a cell performs on its track: a live cell reads
the whole window it plays, a frozen cell reads the single sample time. -/
def cellReads (c : Cell) : Fin 3 × ℚ × ℚ :=
  match c.content with
  | CellContent.live i a b => (i, a, b)
  | CellContent.frozen i t _ => (i, t, t)

/-- Every (track, start, end) source read the sequential pipeline performs
across all segments of the timeline. -/
def frameReads (t1 t2 t3 : Track) : List (Fin 3 × ℚ × ℚ) :=
  ((sequentialTimeline t1 t2 t3).map (fun seg => seg.cells.map cellReads)).flatten

/-- A read is within range when its whole window lies inside
`[0, duration]` of the track it reads. -/
def readInRange (t1 t2 t3 : Track) (r : Fin 3 × ℚ × ℚ) : Prop :=
  0 ≤ r.2.1 ∧ r.2.2 ≤ trackDuration t1 t2 t3 r.1

/-- The content of cell `j` in segment `i` of the sequential part (the
segment after the intro). -/
def seqCellContent (t1 t2 t3 : Track) (i j : Fin 3) : CellContent :=
  (((seqSeg t1 t2 t3 i).cells.get? j.val).getD ⟨0, CellContent.live 0 0 0⟩).content

/-- Outcome of the composition stage of the Feature 3 block. As in
Feature 2, the source has no InvalidTrackError; the constructor exists so
the spec claim about it can be stated. `composed` carries the timeline the
block builds and encodes. -/
inductive SeqOutcome where
  | notRun : SeqOutcome
  | composed : List Seg → SeqOutcome
  | raisedInvalidTrack : SeqOutcome
  deriving DecidableEq

/-- The Feature 3 control flow up to the watermark call (src/app.py lines
179-255): the sequential generation block runs only under the guard
`if uploaded_seq and len(uploaded_seq) == 3`; any other upload count
leaves the block unentered. When the guard passes, the local imports at
lines 182-183 make `os`, `CompositeVideoClip` and `concatenate_videoclips`
resolve, so the block really composes and encodes the timeline — no branch
examines durations or raises anything about the tracks. (The run then dies
at the undefined `apply_watermark`, line 258, after the raw file is
written but before session state is stored: that stage is modelled by
`feature2Export` and settled under claim C6.) -/
def feature3Run (tracks : List Track) : SeqOutcome :=
  if tracks ≠ [] ∧ tracks.length = 3 then
    match tracks with
    | [t1, t2, t3] => SeqOutcome.composed (sequentialTimeline t1 t2 t3)
    | _ => SeqOutcome.notRun
  else SeqOutcome.notRun

/-- Modelled from the spec: `get_transform_function` lives in
`helpers/style_transfer`, which is not under src/. The spec Transform
Registry resolves an unknown or empty identifier (such as the style choice
"None") to the identity transform. -/
def identityTransform : Frame → Frame := fun f => f

/-! ## Concrete fixtures used by counterexamples and witnesses -/

/-- A 1 x 2 all-black test frame. -/
def testFrame : Frame := ⟨1, 2, fun _ _ _ => 0⟩

/-- A generator stream whose first 900 draws are 0 and whose later draws
are 1: the first rain invocation consumes the zeros, the second the ones. -/
def splitStream : Nat → Nat := fun k => if k < 900 then 0 else 1

/-- That stream packaged as a starting generator state. -/
def rainRng : RngState := ⟨splitStream, 0⟩

/-- The all-zero generator state. -/
def zeroRng : RngState := ⟨fun _ => 0, 0⟩

/-- An uploaded track of duration 1 second. -/
def unitTrack : Track := ⟨1, 640, 480⟩

/-- An uploaded track of duration 2 seconds. -/
def twoSecTrack : Track := ⟨2, 640, 480⟩

/-- An uploaded track of duration half a second, shorter than the intro. -/
def shortTrack : Track := ⟨1 / 2, 640, 480⟩

/-- An uploaded track of zero duration. -/
def zeroTrack : Track := ⟨0, 640, 480⟩

/-- A 1 x 1 frame with every channel at 100. -/
def grayFrame : Frame := ⟨1, 1, fun _ _ _ => 100⟩

/-- A concrete styled side-by-side composite. -/
def styledFixture : Composite := ⟨1280, 720, 1, sbsPlacements⟩

/-- A concrete raw side-by-side composite. -/
def rawFixture : Composite := ⟨1280, 720, 1, sbsPlacements⟩

/-- The empty session state before the block runs. -/
def emptySession : SessionState := ⟨none, none⟩

/-! ## Helper lemmas -/

/-- Painting drops onto any base layer and reading one pixel: the pixel
holds the rain color exactly when some drop covers it inside the image, and
otherwise still holds the base value. -/
theorem foldl_drawLine_apply (hgt wid row col : Nat) (ch : Fin 3) (drops : List Drop) :
    ∀ base : Nat → Nat → Fin 3 → Nat,
      (drops.foldl (fun layer d => drawLine hgt wid d layer) base) row col ch =
        if ∃ d ∈ drops, dropCovers d row col ∧ row < hgt ∧ col < wid then rainColor ch
        else base row col ch := by
  induction drops with
  | nil => intro base; simp
  | cons d rest ih =>
    intro base
    rw [List.foldl_cons, ih (drawLine hgt wid d base)]
    by_cases hr : ∃ x ∈ rest, dropCovers x row col ∧ row < hgt ∧ col < wid
    · rw [if_pos hr,
        if_pos ⟨hr.choose, List.mem_cons_of_mem d hr.choose_spec.1, hr.choose_spec.2⟩]
    · rw [if_neg hr]
      unfold drawLine
      by_cases hd : dropCovers d row col ∧ row < hgt ∧ col < wid
      · rw [if_pos hd, if_pos ⟨d, List.mem_cons_self d rest, hd⟩]
      · rw [if_neg hd, if_neg ?_]
        rintro ⟨x, hx, hcov⟩
        rcases List.mem_cons.mp hx with rfl | hx2
        · exact hd hcov
        · exact hr ⟨x, hx2, hcov⟩

/-- Reading one pixel of the finished rain layer. -/
theorem rainLayer_apply (hgt wid row col : Nat) (ch : Fin 3) (drops : List Drop) :
    rainLayer hgt wid drops row col ch =
      if ∃ d ∈ drops, dropCovers d row col ∧ row < hgt ∧ col < wid then rainColor ch
      else 0 :=
  foldl_drawLine_apply hgt wid row col ch drops _

/-- Sampling `n` drops consumes exactly `3 * n` draws from the generator. -/
theorem sampleDrops_state (w h : Nat) :
    ∀ (n : Nat) (s : RngState), (sampleDrops w h n s).2 = ⟨s.stream, s.pos + 3 * n⟩ := by
  intro n
  induction n with
  | zero => intro s; simp [sampleDrops]
  | succ n ih =>
    intro s
    simp only [sampleDrops, np_random_randint]
    rw [ih]
    congr 1
    show s.pos + 1 + 1 + 1 + 3 * n = s.pos + 3 * (n + 1)
    omega

/-- When the generator stream is constant on the consumed range, every
sampled drop is the same. -/
theorem sampleDrops_const (w h v : Nat) (g : Nat → Nat) :
    ∀ (n : Nat) (pos : Nat), (∀ k, k < 3 * n → g (pos + k) = v) →
      (sampleDrops w h n ⟨g, pos⟩).1 = List.replicate n ⟨v % w, v % h, 10 + v % 10⟩ := by
  intro n
  induction n with
  | zero => intro pos _; simp [sampleDrops]
  | succ n ih =>
    intro pos hg
    have h0 : g pos = v := by simpa using hg 0 (by omega)
    have h1 : g (pos + 1) = v := hg 1 (by omega)
    have h2 : g (pos + 2) = v := hg 2 (by omega)
    have hrest := ih (pos + 3) (fun k hk => by
      have h3 := hg (3 + k) (by omega)
      rwa [show pos + (3 + k) = pos + 3 + k by omega] at h3)
    simp only [sampleDrops, np_random_randint, List.replicate_succ, Nat.zero_add,
      Nat.sub_zero]
    rw [h0, h1, h2, hrest]

/-- The sampled drop list depends only on the draws the call consumes: two
generator states that agree on their next `3 * n` draws yield the same
drops. -/
theorem sampleDrops_congr (w h : Nat) :
    ∀ (n : Nat) (s t : RngState),
      (∀ k, k < 3 * n → s.stream (s.pos + k) = t.stream (t.pos + k)) →
      (sampleDrops w h n s).1 = (sampleDrops w h n t).1 := by
  intro n
  induction n with
  | zero => intro s t _; rfl
  | succ n ih =>
    intro s t hg
    have e0 : s.stream s.pos = t.stream t.pos := by simpa using hg 0 (by omega)
    have e1 : s.stream (s.pos + 1) = t.stream (t.pos + 1) := hg 1 (by omega)
    have e2 : s.stream (s.pos + 1 + 1) = t.stream (t.pos + 1 + 1) := hg 2 (by omega)
    have hrest := ih ⟨s.stream, s.pos + 1 + 1 + 1⟩ ⟨t.stream, t.pos + 1 + 1 + 1⟩
      (fun k hk => by
        have h3 := hg (3 + k) (by omega)
        simp only
        rwa [show s.pos + 1 + 1 + 1 + k = s.pos + (3 + k) by omega,
          show t.pos + 1 + 1 + 1 + k = t.pos + (3 + k) by omega])
    simp only [sampleDrops, np_random_randint]
    rw [e0, e1, e2, hrest]

/-- The min-duration loop on a three-element list computes the minimum. -/
theorem minDurationLoop_three (d1 d2 d3 : ℚ) :
    minDurationLoop [d1, d2, d3] = some (min d1 (min d2 d3)) := by
  by_cases h1 : d2 < d1 <;> by_cases h2 : d3 < d2 <;> by_cases h3 : d3 < d1 <;>
    simp [minDurationLoop, h1, h2, h3, min_def] <;>
    split_ifs <;>
    first
    | rfl
    | linarith

/-- Unfolding lemma: the drops one rain call samples. -/
theorem rainDrops_def (f : Frame) (s : RngState) :
    rainDrops f s = sampleDrops f.w f.h numDrops s := rfl

/-- Dimensions of a literal frame. -/
theorem frameDims_mk (a b : Nat) (p : Nat → Nat → Fin 3 → Nat) :
    (Frame.mk a b p).dims = (a, b) := rfl

/-- Dimensions of any frame, componentwise. -/
theorem frameDims_eq (f : Frame) : f.dims = (f.h, f.w) := rfl

/-- The frame an add_rain_effect call returns. -/
theorem add_rain_effect_fst (f : Frame) (s : RngState) :
    (add_rain_effect f s).1 =
      ⟨f.h, f.w,
       fun row col ch =>
         addWeightedPx (f.px row col ch)
           (rainLayer f.h f.w (rainDrops f s).1 row col ch)⟩ := by
  unfold add_rain_effect
  dsimp only

/-- The generator state a combined transform call leaves behind. -/
theorem combined_transform_snd (tf : Frame → Frame) (f : Frame) (s : RngState) :
    (combined_transform tf f s).2 = (rainDrops (tf f) s).2 := by
  unfold combined_transform add_rain_effect
  dsimp only

/-- The whole frame a combined transform call returns. -/
theorem combined_transform_fst (tf : Frame → Frame) (f : Frame) (s : RngState) :
    (combined_transform tf f s).1 =
      ⟨(tf f).h, (tf f).w,
       fun row col ch =>
         addWeightedPx ((tf f).px row col ch)
           (rainLayer (tf f).h (tf f).w (rainDrops (tf f) s).1 row col ch)⟩ := by
  unfold combined_transform add_rain_effect
  dsimp only

/-- One pixel channel of the frame a combined transform call returns. -/
theorem combined_transform_px (tf : Frame → Frame) (f : Frame) (s : RngState)
    (row col : Nat) (ch : Fin 3) :
    (combined_transform tf f s).1.px row col ch =
      addWeightedPx ((tf f).px row col ch)
        (rainLayer (tf f).h (tf f).w (rainDrops (tf f) s).1 row col ch) := by
  rw [combined_transform_fst]

/-! ## Claim theorems -/

/-- C1 (code bug): every Feature 2 run on three uploads raises NameError
at line 91 (`os` unbound at module scope) before the min-duration loop, so
the program never produces the claimed composited outputs of any duration;
the unreachable composition code at lines 96-134 would, as the claim and
the spec intend, trim both the raw and the styled output to exactly
min(d1, d2, d3). -/
theorem feature2_composition_never_produced (t1 t2 t3 : Track) :
    feature2Run [t1, t2, t3] =
      ComposeOutcome.raisedNameError "NameError: name os is not defined" ∧
    (∀ raw styled : Composite,
      feature2Run [t1, t2, t3] ≠ ComposeOutcome.completed raw styled) ∧
    (sideBySide t1 t2 t3).1.duration = min t1.duration (min t2.duration t3.duration) ∧
    (sideBySide t1 t2 t3).2.duration = min t1.duration (min t2.duration t3.duration) := by
  have hguard : feature2Run [t1, t2, t3] =
      ComposeOutcome.raisedNameError "NameError: name os is not defined" := by
    unfold feature2Run
    rw [if_pos ⟨List.cons_ne_nil _ _, rfl⟩]
  have hm : minDurationLoop ([t1, t2, t3].map Track.duration) =
      some (min t1.duration (min t2.duration t3.duration)) := by
    rw [List.map_cons, List.map_cons, List.map_cons, List.map_nil, minDurationLoop_three]
  refine ⟨hguard, ?_, ?_, ?_⟩
  · intro raw styled h
    rw [hguard] at h
    exact nomatch h
  · show (minDurationLoop ([t1, t2, t3].map Track.duration)).getD 0 = _
    rw [hm]
    rfl
  · show (minDurationLoop ([t1, t2, t3].map Track.duration)).getD 0 = _
    rw [hm]
    rfl

/-- C8 (code bug): the Feature 2 block never produces a composite of any
canvas size, because it raises NameError at line 91 (`os` unbound, and
`CompositeVideoClip` at line 120 also unbound) on every run; the
unreachable composition code at lines 96-134 would, as the claim and the
spec intend, place the three tracks in 426-wide cells at x = 0, 426, 852
on a fixed 1280 x 720 canvas regardless of their native resolutions, in
both the raw and the styled composite. -/
theorem feature2_canvas_never_produced (t1 t2 t3 : Track) :
    (∀ raw styled : Composite,
      feature2Run [t1, t2, t3] ≠ ComposeOutcome.completed raw styled) ∧
    (sideBySide t1 t2 t3).1.canvasW = 1280 ∧ (sideBySide t1 t2 t3).1.canvasH = 720 ∧
    (sideBySide t1 t2 t3).2.canvasW = 1280 ∧ (sideBySide t1 t2 t3).2.canvasH = 720 ∧
    (sideBySide t1 t2 t3).1.placements.map Placement.x = [0, 426, 852] ∧
    (sideBySide t1 t2 t3).2.placements.map Placement.x = [0, 426, 852] ∧
    (sideBySide t1 t2 t3).1.placements.map Placement.w = [426, 426, 426] ∧
    (sideBySide t1 t2 t3).1.placements.map Placement.h = [720, 720, 720] ∧
    (sideBySide t1 t2 t3).2.placements.map Placement.w = [426, 426, 426] ∧
    (sideBySide t1 t2 t3).2.placements.map Placement.h = [720, 720, 720] := by
  refine ⟨?_, rfl, rfl, rfl, rfl, rfl, rfl, rfl, rfl, rfl, rfl⟩
  intro raw styled h
  have hguard : feature2Run [t1, t2, t3] =
      ComposeOutcome.raisedNameError "NameError: name os is not defined" := by
    unfold feature2Run
    rw [if_pos ⟨List.cons_ne_nil _ _, rfl⟩]
  rw [hguard] at h
  exact nomatch h

/-- C2: the sequential-reveal composition with intro produces a timeline
whose total duration is the 1-second intro plus d1 + d2 + d3, and whose
four segments have durations 1, d1, d2, d3 in order. -/
theorem sequential_total_duration (t1 t2 t3 : Track) :
    timelineDuration (sequentialTimeline t1 t2 t3) =
      1 + (t1.duration + t2.duration + t3.duration) ∧
    (sequentialTimeline t1 t2 t3).map Seg.duration =
      [1, t1.duration, t2.duration, t3.duration] := by
  refine ⟨?_, rfl⟩
  have hmap : (sequentialTimeline t1 t2 t3).map Seg.duration =
      [1, t1.duration, t2.duration, t3.duration] := rfl
  rw [timelineDuration, hmap]
  simp [List.sum_cons, List.sum_nil]
  ring

/-- C3 counterexample: in the first sequential segment (track 0 live) the
frozen cell of track 1 holds the frame sampled at source time 1, not the
first frame (which would be sample time 0): the claim as stated fails. -/
theorem seq_frozen_not_first_frame :
    seqCellContent twoSecTrack twoSecTrack twoSecTrack 0 1 =
      CellContent.frozen 1 1 (2 / 5) ∧
    seqCellContent twoSecTrack twoSecTrack twoSecTrack 0 1 ≠
      CellContent.frozen 1 0 (2 / 5) := by
  refine ⟨rfl, ?_⟩
  simp [seqCellContent, seqSeg, List.finRange]

/-- C3 amended: during segment i, track i plays at full rate in its cell
over its whole duration, while every other cell j holds a frozen frame of
track j sampled at source time 1 (not its first frame), held for the whole
segment (the segment lasts exactly track i's duration) at opacity 0.4
(which lies in the 0.2 to 0.4 range), placed in cell j at x = j * 426. -/
theorem seq_frozen_cells (t1 t2 t3 : Track) (i j : Fin 3) (hij : j ≠ i) :
    seqCellContent t1 t2 t3 i j = CellContent.frozen j 1 (2 / 5) ∧
    seqCellContent t1 t2 t3 i i = CellContent.live i 0 (trackDuration t1 t2 t3 i) ∧
    (seqSeg t1 t2 t3 i).duration = trackDuration t1 t2 t3 i ∧
    (0.2 : ℚ) ≤ 2 / 5 ∧ (2 / 5 : ℚ) ≤ 0.4 ∧
    (seqSeg t1 t2 t3 i).cells.map Cell.x = [0, seqCellWidth, 2 * seqCellWidth] := by
  refine ⟨?_, ?_, rfl, by norm_num, by norm_num, ?_⟩
  · fin_cases i <;> fin_cases j <;> first | rfl | exact absurd rfl hij
  · fin_cases i <;> rfl
  · rfl

/-- C3 witness: the amended statement holds at concrete tracks with the
frozen cell j = 1 in segment i = 0. -/
theorem seq_frozen_cells_witness :
    seqCellContent twoSecTrack unitTrack unitTrack 0 1 = CellContent.frozen 1 1 (2 / 5) ∧
    seqCellContent twoSecTrack unitTrack unitTrack 0 0 =
      CellContent.live 0 0 (trackDuration twoSecTrack unitTrack unitTrack 0) ∧
    (seqSeg twoSecTrack unitTrack unitTrack 0).duration =
      trackDuration twoSecTrack unitTrack unitTrack 0 ∧
    (0.2 : ℚ) ≤ 2 / 5 ∧ (2 / 5 : ℚ) ≤ 0.4 ∧
    (seqSeg twoSecTrack unitTrack unitTrack 0).cells.map Cell.x =
      [0, seqCellWidth, 2 * seqCellWidth] :=
  seq_frozen_cells twoSecTrack unitTrack unitTrack 0 1 (by decide)

/-- C4 counterexample: the rain overlay samples the shared NumPy random
generator, so two successive applications of the effective transform to the
same frame are not bit-identical. On a 1 x 2 black frame with a generator
stream whose first 900 draws are 0 and later draws are 1, the first
application leaves the pixel at row 0 column 1 at value 0 while the second
raises it to 30. -/
theorem combined_transform_not_referentially_transparent :
    (combined_transform identityTransform testFrame rainRng).1.px 0 1 0 ≠
      (combined_transform identityTransform testFrame
        ((combined_transform identityTransform testFrame rainRng).2)).1.px 0 1 0 := by
  have hw : (identityTransform testFrame).w = 2 := rfl
  have hh : (identityTransform testFrame).h = 1 := rfl
  have hpx : (identityTransform testFrame).px 0 1 0 = 0 := rfl
  have hdrops1 : (sampleDrops 2 1 numDrops rainRng).1 =
      List.replicate numDrops ⟨0, 0, 10⟩ := by
    have hc := sampleDrops_const 2 1 0 splitStream numDrops 0 (fun k hk => by
      simp only [numDrops] at hk
      simp only [splitStream, Nat.zero_add]
      rw [if_pos (by omega)])
    exact hc
  have hs2 : (combined_transform identityTransform testFrame rainRng).2 =
      ⟨splitStream, 900⟩ := by
    rw [combined_transform_snd, rainDrops_def, hw, hh, sampleDrops_state]
    rfl
  have hdrops2 : (sampleDrops 2 1 numDrops ⟨splitStream, 900⟩).1 =
      List.replicate numDrops ⟨1, 0, 11⟩ := by
    have hc := sampleDrops_const 2 1 1 splitStream numDrops 900 (fun k hk => by
      simp only [splitStream]
      rw [if_neg (by omega)])
    exact hc
  have hfirst : (combined_transform identityTransform testFrame rainRng).1.px 0 1 0 = 0 := by
    rw [combined_transform_px, rainDrops_def, hw, hh, hpx, hdrops1, rainLayer_apply,
      if_neg (by simp [List.mem_replicate, dropCovers])]
    decide
  have hsecond : (combined_transform identityTransform testFrame ⟨splitStream, 900⟩).1.px 0 1 0
      = 30 := by
    rw [combined_transform_px, rainDrops_def, hw, hh, hpx, hdrops2, rainLayer_apply,
      if_pos ⟨⟨1, 0, 11⟩, List.mem_replicate.mpr ⟨by simp [numDrops], rfl⟩, by decide⟩]
    decide
  rw [hs2, hfirst, hsecond]
  decide

/-- C4 amended: the combined transform (style first, rain second) is a
deterministic function of the input frame and the 900 generator draws it
consumes: two generator states that agree on their next 900 draws yield
bit-identical output frames. Referential transparency across invocations
fails only because the shared global generator advances between calls. -/
theorem combined_transform_deterministic (tf : Frame → Frame) (f : Frame)
    (s t : RngState)
    (hagree : ∀ k, k < 900 → s.stream (s.pos + k) = t.stream (t.pos + k)) :
    (combined_transform tf f s).1 = (combined_transform tf f t).1 := by
  have hd : (rainDrops (tf f) s).1 = (rainDrops (tf f) t).1 := by
    rw [rainDrops_def, rainDrops_def]
    exact sampleDrops_congr (tf f).w (tf f).h numDrops s t (fun k hk => by
      refine hagree k ?_
      simp only [numDrops] at hk
      omega)
  rw [combined_transform_fst tf f s, combined_transform_fst tf f t, hd]

/-- C4 witness: the determinism statement holds for two distinct generator
states over the all-zero stream. -/
theorem combined_transform_deterministic_witness :
    (combined_transform identityTransform grayFrame zeroRng).1 =
      (combined_transform identityTransform grayFrame ⟨fun _ => 0, 5⟩).1 :=
  combined_transform_deterministic identityTransform grayFrame zeroRng
    ⟨fun _ => 0, 5⟩ (fun _ _ => rfl)

/-- C5 counterexample: uploading 2 tracks leaves both generation blocks
unentered and raises nothing (there is no InvalidTrackError in the code);
and a zero-duration track among three uploads is not rejected by any
validation: duration is never examined — Feature 2 dies with the
ever-present NameError at line 91 whatever the durations, and Feature 3
composes the zero-duration track without complaint. -/
theorem wrong_track_count_no_error :
    feature2Run [unitTrack, unitTrack] = ComposeOutcome.notRun ∧
    feature2Run [unitTrack, unitTrack] ≠ ComposeOutcome.raisedInvalidTrack ∧
    feature3Run [unitTrack, unitTrack] = SeqOutcome.notRun ∧
    feature3Run [unitTrack, unitTrack] ≠ SeqOutcome.raisedInvalidTrack ∧
    feature2Run [zeroTrack, unitTrack, unitTrack] =
      ComposeOutcome.raisedNameError "NameError: name os is not defined" ∧
    feature2Run [zeroTrack, unitTrack, unitTrack] ≠ ComposeOutcome.raisedInvalidTrack ∧
    feature3Run [zeroTrack, unitTrack, unitTrack] =
      SeqOutcome.composed (sequentialTimeline zeroTrack unitTrack unitTrack) ∧
    feature3Run [zeroTrack, unitTrack, unitTrack] ≠ SeqOutcome.raisedInvalidTrack := by
  refine ⟨rfl, (fun h => nomatch h), rfl, (fun h => nomatch h),
    rfl, (fun h => nomatch h), rfl, (fun h => nomatch h)⟩

/-- C5 amended: a wrong track count does not raise InvalidTrackError; both
generation blocks (including all of their file I/O) are simply skipped by
the UI guards, silently. A zero-duration track is not rejected either:
no branch of either block examines durations — Feature 2 raises NameError
at line 91 on every entry regardless of the tracks, and Feature 3 composes
a zero-duration track without validation. No upload list whatsoever makes
either block raise InvalidTrackError, which does not exist in the code. -/
theorem feature2_never_raises (ts : List Track) :
    (ts.length ≠ 3 →
      feature2Run ts = ComposeOutcome.notRun ∧ feature3Run ts = SeqOutcome.notRun) ∧
    feature2Run ts ≠ ComposeOutcome.raisedInvalidTrack ∧
    feature3Run ts ≠ SeqOutcome.raisedInvalidTrack := by
  rcases ts with _ | ⟨a, _ | ⟨b, _ | ⟨c, _ | ⟨d, rest⟩⟩⟩⟩
  · exact ⟨fun _ => ⟨rfl, rfl⟩, (fun h => nomatch h), (fun h => nomatch h)⟩
  · exact ⟨fun _ => ⟨rfl, rfl⟩, (fun h => nomatch h), (fun h => nomatch h)⟩
  · exact ⟨fun _ => ⟨rfl, rfl⟩, (fun h => nomatch h), (fun h => nomatch h)⟩
  · refine ⟨fun hlen => absurd rfl hlen, ?_, ?_⟩
    · simp [feature2Run]
    · simp [feature3Run]
  · have hneg : ¬((a :: b :: c :: d :: rest) ≠ [] ∧
        (a :: b :: c :: d :: rest).length = 3) := by
      rintro ⟨-, h3⟩
      simp only [List.length_cons] at h3
      omega
    refine ⟨fun _ => ⟨?_, ?_⟩, ?_, ?_⟩
    · unfold feature2Run
      rw [if_neg hneg]
    · unfold feature3Run
      rw [if_neg hneg]
    · unfold feature2Run
      rw [if_neg hneg]
      exact fun h => nomatch h
    · unfold feature3Run
      rw [if_neg hneg]
      exact fun h => nomatch h

/-- C5 witness: a single-track upload leaves both blocks unentered. -/
theorem feature2_never_raises_witness :
    feature2Run [unitTrack] = ComposeOutcome.notRun ∧
    feature3Run [unitTrack] = SeqOutcome.notRun :=
  (feature2_never_raises [unitTrack]).1 (by decide)

/-- C6 counterexample: when the watermark call fails (as it always does in
the source, where the name apply_watermark resolves to nothing), the
exception propagates out of the generation block: the session state keeps
its old value and the caller does not receive the unwatermarked styled
file. -/
theorem watermark_failure_loses_output :
    feature2Export rawFixture styledFixture apply_watermark_undefined emptySession =
      ExportResult.uncaught "NameError: name apply_watermark is not defined" emptySession ∧
    feature2Export rawFixture styledFixture apply_watermark_undefined emptySession ≠
      ExportResult.delivered ⟨some rawFixture, some styledFixture⟩ :=
  ⟨rfl, fun h => nomatch h⟩

/-- C6 amended: when the watermark stage fails, the failure propagates as
an uncaught exception (the source defines no WatermarkError and wraps the
call in no try/except): the session state is left unchanged, so the caller
receives neither the watermarked nor the unwatermarked file. -/
theorem watermark_failure_propagates (raw styled : Composite) (st : SessionState)
    (wm : Composite → Except String Composite) (e : String)
    (hwm : wm styled = Except.error e) :
    feature2Export raw styled wm st = ExportResult.uncaught e st := by
  unfold feature2Export
  rw [hwm]

/-- C6 witness: the propagation statement holds at the concrete
always-failing watermark callable of the source. -/
theorem watermark_failure_propagates_witness :
    feature2Export rawFixture styledFixture apply_watermark_undefined emptySession =
      ExportResult.uncaught "NameError: name apply_watermark is not defined" emptySession :=
  watermark_failure_propagates rawFixture styledFixture emptySession
    apply_watermark_undefined "NameError: name apply_watermark is not defined" rfl

/-- C7: chaining a style transform with the rain overlay preserves frame
dimensions: add_rain_effect never changes the height or width of its input
frame (the channel count is fixed at 3 by the Frame type itself), and
whenever the style transform preserves dimensions (as the spec requires of
every transform in helpers/style_transfer, which is outside src/), the
chained combined_transform returns a frame of the same dimensions as its
input. -/
theorem chained_transform_preserves_dims :
    (∀ (f : Frame) (s : RngState), (add_rain_effect f s).1.dims = f.dims) ∧
    (∀ tf : Frame → Frame, (∀ f : Frame, (tf f).dims = f.dims) →
      ∀ (f : Frame) (s : RngState), (combined_transform tf f s).1.dims = f.dims) := by
  constructor
  · intro f s
    rw [add_rain_effect_fst, frameDims_mk, frameDims_eq]
  · intro tf htf f s
    rw [combined_transform_fst, frameDims_mk, ← htf f, frameDims_eq]

/-- C7 witness: the chained transform with the identity style preserves
the dimensions of a concrete 1 x 1 frame. -/
theorem chained_transform_preserves_dims_witness :
    (combined_transform identityTransform grayFrame zeroRng).1.dims = grayFrame.dims :=
  chained_transform_preserves_dims.2 identityTransform (fun _ => rfl) grayFrame zeroRng

/-- C9: the sequential pipeline reads each track only at source times
inside the track whenever every duration is at least 1 second (the intro
subclips read over [0, 1], the live segments over the whole track, the
frozen placeholders sample t = 1); and with a track shorter than 1 second
the out-of-range read branch is reachable: some read then ends past the
track duration. -/
theorem sequential_reads_in_range (t1 t2 t3 : Track)
    (h1 : 1 ≤ t1.duration) (h2 : 1 ≤ t2.duration) (h3 : 1 ≤ t3.duration) :
    (∀ r ∈ frameReads t1 t2 t3, readInRange t1 t2 t3 r) ∧
    (∃ r ∈ frameReads shortTrack twoSecTrack twoSecTrack,
      ¬ readInRange shortTrack twoSecTrack twoSecTrack r) := by
  constructor
  · intro r hr
    have hlist : frameReads t1 t2 t3 =
        [(0, 0, 1), (1, 0, 1), (2, 0, 1),
         (0, 0, t1.duration), (1, 1, 1), (2, 1, 1),
         (0, 1, 1), (1, 0, t2.duration), (2, 1, 1),
         (0, 1, 1), (1, 1, 1), (2, 0, t3.duration)] := rfl
    rw [hlist] at hr
    simp only [List.mem_cons, List.not_mem_nil, or_false] at hr
    rcases hr with rfl | rfl | rfl | rfl | rfl | rfl | rfl | rfl | rfl | rfl | rfl | rfl
    · exact ⟨le_refl 0, h1⟩
    · exact ⟨le_refl 0, h2⟩
    · exact ⟨le_refl 0, h3⟩
    · exact ⟨le_refl 0, le_refl _⟩
    · exact ⟨zero_le_one, h2⟩
    · exact ⟨zero_le_one, h3⟩
    · exact ⟨zero_le_one, h1⟩
    · exact ⟨le_refl 0, le_refl _⟩
    · exact ⟨zero_le_one, h3⟩
    · exact ⟨zero_le_one, h1⟩
    · exact ⟨zero_le_one, h2⟩
    · exact ⟨le_refl 0, le_refl _⟩
  · refine ⟨(0, 1, 1), ?_, ?_⟩
    · simp [frameReads, sequentialTimeline, introSeg, seqSeg, cellReads, List.finRange]
    · intro hcontra
      have hd : trackDuration shortTrack twoSecTrack twoSecTrack 0 = 1 / 2 := rfl
      rw [readInRange, hd] at hcontra
      norm_num at hcontra

/-- C9 witness: with three 1-second tracks every read is in range. -/
theorem sequential_reads_in_range_witness :
    (∀ r ∈ frameReads unitTrack unitTrack unitTrack,
      readInRange unitTrack unitTrack unitTrack r) ∧
    (∃ r ∈ frameReads shortTrack twoSecTrack twoSecTrack,
      ¬ readInRange shortTrack twoSecTrack twoSecTrack r) :=
  sequential_reads_in_range unitTrack unitTrack unitTrack
    (le_refl 1) (le_refl 1) (le_refl 1)

/-- C10: the rain overlay never darkens a pixel: every output channel
value of add_rain_effect is at least the input value, since the output is
the saturating rounded sum of the input frame at weight 1.0 and a
nonnegative rain layer at weight 0.15. -/
theorem add_rain_never_darkens (f : Frame) (s : RngState) (row col : Nat) (ch : Fin 3)
    (hf : f.px row col ch ≤ 255) :
    f.px row col ch ≤ (add_rain_effect f s).1.px row col ch := by
  show f.px row col ch ≤ addWeightedPx (f.px row col ch) _
  generalize rainLayer f.h f.w (rainDrops f s).1 row col ch = rv
  unfold addWeightedPx roundHalfEven
  refine le_min hf ?_
  dsimp only
  split_ifs <;> omega

/-- C10 witness: on a concrete gray frame the pixel does not get darker. -/
theorem add_rain_never_darkens_witness :
    grayFrame.px 0 0 0 ≤ (add_rain_effect grayFrame zeroRng).1.px 0 0 0 :=
  add_rain_never_darkens grayFrame zeroRng 0 0 0 (by decide)

end VideoToCartoon
